import Mathlib

/-!
Shallow embedding of the recurring-billing engine
(`src/modern-python/app/services/billing_service.py` and
`src/modern-python/app/services/payment_service.py`) and proofs of the
specification claims about it.

Modelling conventions:
* timestamps (`datetime`) are integers counted in days, so
  `t + timedelta(days=n)` becomes `t + n`;
* enum values keep their Python member names; `billing_cycle.value` is the
  enum's string value, so cycle comparison stays on `String` exactly as in
  `_calculate_next_billing_date`;
* the payment gateway's random draws (success draw, choice of decline
  reason, simulated timeout) are an explicit `GatewayBehavior` input;
* database rows live in plain structures; the subscription store of
  `cancel_subscription` is a `List Subscription` looked up by id.
-/

/-- `SubscriptionStatus` enum from `app/models.py`. -/
inductive SubscriptionStatus where
  | active
  | cancelled
  | past_due
  | paused
deriving DecidableEq, Repr

/-- `PaymentStatus` enum from `app/models.py`. -/
inductive PaymentStatus where
  | success
  | failed
  | pending
  | refunded
deriving DecidableEq, Repr

/-- `SubscriptionPlan` row (the fields the billing engine reads). -/
structure SubscriptionPlan where
  id : Nat
  name : String
  price : Int
  billing_cycle : String
  trial_days : Int
deriving DecidableEq, Repr

/-- `Subscription` row (the fields the billing engine reads or writes).
The `plan` relationship is embedded, mirroring the eager-loaded
`subscription.plan` the service dereferences. -/
structure Subscription where
  id : Nat
  user_id : Nat
  plan : SubscriptionPlan
  status : SubscriptionStatus
  started_at : Int
  next_billing_date : Int
  trial_ends_at : Option Int
  cancelled_at : Option Int
deriving DecidableEq, Repr

/-- `BillingHistory` row as created by `_process_subscription_billing`. -/
structure BillingHistory where
  subscription_id : Nat
  amount : Int
  status : PaymentStatus
  transaction_id : Option String
  failure_reason : Option String
  processed_at : Int
deriving DecidableEq, Repr

/-- `PaymentResult` dataclass from `app/services/payment_service.py`
(`processing_time_ms` is wall-clock noise the billing service never reads
and is omitted). -/
structure PaymentResult where
  success : Bool
  transaction_id : Option String
  failure_reason : Option String
deriving DecidableEq, Repr

/-- The decline reasons `process_payment` chooses from at random. -/
def failure_reasons : List String :=
  ["Insufficient funds", "Card declined", "Payment method expired",
   "Billing address mismatch", "Risk assessment failed"]

/-- The random draws inside one `process_payment` call, made explicit:
the gateway either completes with the success draw passing (`ok`),
completes with the draw failing and `random.choice` picking decline reason
number `i` (`declined`), or `_simulate_payment_gateway_call` raises its
`Exception("Gateway timeout")` (`gatewayTimeout`). `uuid4()` becomes the
explicit `transaction_id` argument. -/
inductive GatewayBehavior where
  | ok (transaction_id : String)
  | declined (transaction_id : String) (i : Fin failure_reasons.length)
  | gatewayTimeout (transaction_id : String)
deriving DecidableEq, Repr

/-- `PaymentService.process_payment`: the gateway call and success draw
produce a `PaymentResult`; the `except` branch catches the simulated
timeout and returns `success=False` with reason `"System error: {e}"`,
never raising. -/
def process_payment (g : GatewayBehavior) : PaymentResult :=
  match g with
  | .ok tx => { success := true, transaction_id := some tx, failure_reason := none }
  | .declined tx i =>
      { success := false, transaction_id := some tx,
        failure_reason := some (failure_reasons.get i) }
  | .gatewayTimeout tx =>
      { success := false, transaction_id := some tx,
        failure_reason := some ("System error: " ++ "Gateway timeout") }

/-- `BillingService._calculate_next_billing_date`. -/
def calculate_next_billing_date (current_date : Int) (billing_cycle : String) : Int :=
  if billing_cycle = "monthly" then current_date + 30
  else if billing_cycle = "yearly" then current_date + 365
  else if billing_cycle = "weekly" then current_date + 7
  else current_date + 30

/-- What one `_process_subscription_billing` call does: the billing-history
rows it `db.add`s, the subscription row after its mutations, and the `bool`
the coroutine returns. -/
structure AttemptEffect where
  records : List BillingHistory
  updatedSub : Subscription
  returned : Bool
deriving DecidableEq, Repr

/-- `BillingService._process_subscription_billing`. `process_payment`
never raises, `db.add` is a session-local append, and the subscription
mutations are plain attribute writes, so the surrounding `except` branch
(which would return `False`) is unreachable and the translation is total. -/
def process_subscription_billing (now : Int) (g : GatewayBehavior)
    (s : Subscription) : AttemptEffect :=
  let payment_result := process_payment g
  let billing_record : BillingHistory :=
    { subscription_id := s.id
      amount := s.plan.price
      status := if payment_result.success then .success else .failed
      transaction_id := payment_result.transaction_id
      failure_reason := payment_result.failure_reason
      processed_at := now }
  if payment_result.success then
    { records := [billing_record]
      updatedSub :=
        { s with
          next_billing_date :=
            calculate_next_billing_date s.next_billing_date s.plan.billing_cycle
          status := .active }
      returned := true }
  else
    { records := [billing_record]
      updatedSub := { s with status := .past_due }
      returned := false }

/-- The `dueForBilling` query of `process_billing_cycle_async`
(lines 117-122): `status == ACTIVE and next_billing_date <= today`. -/
def dueForBilling (today : Int) (s : Subscription) : Bool :=
  decide (s.status = SubscriptionStatus.active) && decide (s.next_billing_date ≤ today)

/-- `BillingJob` row (the fields `process_billing_cycle_async` touches).
Job `status` stays a plain string, as in the source. -/
structure BillingJob where
  job_id : String
  job_type : String
  status : String
  total_subscriptions : Nat
  processed_count : Nat
  success_count : Nat
  failure_count : Nat
  error_details : Option String
  started_at : Int
  completed_at : Option Int
deriving DecidableEq, Repr

/-- What `asyncio.gather(..., return_exceptions=True)` hands back for one
task: either the exception the coroutine raised (`inl`, carrying its
message) or the value it returned (`inr`). -/
abbrev TaskResult := Sum String Bool

/-- One task of a batch: `_process_subscription_billing` catches every
exception and returns a `bool`, so the gathered result is always a
returned value (`inr`), never an exception (`inl`). -/
def billing_task_result (now : Int) (g : GatewayBehavior)
    (s : Subscription) : TaskResult :=
  Sum.inr (process_subscription_billing now g s).returned

/-- The per-result counter update of `process_billing_cycle_async`
(lines 143-149): `processed_count += 1`, then `failure_count += 1` when
`isinstance(result, Exception)` and `success_count += 1` otherwise. -/
def update_job_progress (job : BillingJob) (r : TaskResult) : BillingJob :=
  let job := { job with processed_count := job.processed_count + 1 }
  match r with
  | .inl _ => { job with failure_count := job.failure_count + 1 }
  | .inr _ => { job with success_count := job.success_count + 1 }

/-- The slicing loop `for i in range(0, len(subscriptions), batch_size):
batch = subscriptions[i:i + batch_size]`, as the list of slices it
produces. (`range` with step 0 is a `ValueError`; the source always uses
the literal `batch_size = 10`, so the `n = 0` branch is unreachable.) -/
def batches (n : Nat) : List α → List (List α)
  | [] => []
  | a :: l =>
      if _h : n = 0 then []
      else (a :: l).take n :: batches n ((a :: l).drop n)
termination_by l => l.length
decreasing_by
  simp only [List.length_drop, List.length_cons]
  omega

/-- One iteration of the batch loop: gather the batch's task results and
fold the counter updates over them in order. -/
def process_batch (now : Int) (gw : Subscription → GatewayBehavior)
    (job : BillingJob) (batch : List Subscription) : BillingJob :=
  (batch.map (fun s => billing_task_result now (gw s) s)).foldl
    update_job_progress job

/-- The job record as first committed: status `"running"`, counters at
their column defaults (0), then `total_subscriptions` set to the size of
the due set. -/
def initial_job (job_id : String) (now : Int) (total : Nat) : BillingJob :=
  { job_id := job_id, job_type := "billing_cycle", status := "running"
    total_subscriptions := total
    processed_count := 0, success_count := 0, failure_count := 0
    error_details := none, started_at := now, completed_at := none }

/-- `BillingService.process_billing_cycle_async` on the happy path (no
driver-level exception): create the job, snapshot the due population,
process it batch by batch updating counters, then mark the job
completed. `subs` is the due-subscription query result in query order;
`gw` gives each subscription's gateway draws for its one attempt this
run. Returns the final job row. -/
def process_billing_cycle_async (job_id : String) (now : Int)
    (subs : List Subscription) (gw : Subscription → GatewayBehavior) : BillingJob :=
  let job0 := initial_job job_id now subs.length
  let job1 := (batches 10 subs).foldl (process_batch now gw) job0
  { job1 with status := "completed", completed_at := some now }

/-- `BillingService.cancel_subscription` works on a store of subscription
rows; `scalar_one_or_none` on the id filter is lookup of the row with that
id (ids are unique in the table). -/
def find_subscription (store : List Subscription) (sid : Nat) : Option Subscription :=
  store.find? (fun s => s.id == sid)

/-- `BillingService.cancel_subscription`: `False` when no row has the id;
otherwise set `status = CANCELLED`, `cancelled_at = now` on that row and
return `True`. (The `except` branch only fires on a store error, out of
scope for the pure translation.) -/
def cancel_subscription (now : Int) (store : List Subscription)
    (sid : Nat) : Bool × List Subscription :=
  match find_subscription store sid with
  | none => (false, store)
  | some _ =>
      (true,
       store.map (fun s =>
         if s.id == sid then
           { s with status := .cancelled, cancelled_at := some now }
         else s))

/-- `SubscriptionCreate` request schema (`app/schemas.py`):
`trial_days_override: Optional[int] = Field(default=None, ge=0)`. -/
structure SubscriptionCreate where
  user_id : Nat
  plan_id : Nat
  status : SubscriptionStatus
  trial_days_override : Option Int
deriving DecidableEq, Repr

/-- Python `x or y` for `x : Optional[int]`: `None` and `0` are falsy. -/
def pyOrInt (a : Option Int) (b : Int) : Int :=
  match a with
  | none => b
  | some n => if n = 0 then b else n

/-- `BillingService.create_subscription` (the date logic and the row it
constructs; the new row's id is store-assigned and modelled as 0). -/
def create_subscription (now : Int) (plan : SubscriptionPlan)
    (d : SubscriptionCreate) : Subscription :=
  let trial_days := pyOrInt d.trial_days_override plan.trial_days
  if trial_days > 0 then
    { id := 0, user_id := d.user_id, plan := plan, status := d.status
      started_at := now
      next_billing_date := now + trial_days
      trial_ends_at := some (now + trial_days)
      cancelled_at := none }
  else
    let next_billing_date :=
      if plan.billing_cycle = "monthly" then now + 30
      else if plan.billing_cycle = "yearly" then now + 365
      else now + 7
    { id := 0, user_id := d.user_id, plan := plan, status := d.status
      started_at := now
      next_billing_date := next_billing_date
      trial_ends_at := none
      cancelled_at := none }

/-! ### Lemmas about the batch slicing -/

theorem batches_nil (n : Nat) : batches n ([] : List α) = [] := by
  simp [batches]

theorem batches_cons (n : Nat) (hn : n ≠ 0) (a : α) (l : List α) :
    batches n (a :: l) = (a :: l).take n :: batches n ((a :: l).drop n) := by
  simp [batches, hn]

theorem batches_ne_nil_eq (n : Nat) (hn : n ≠ 0) (l : List α) (hl : l ≠ []) :
    batches n l = l.take n :: batches n (l.drop n) := by
  cases l with
  | nil => exact absurd rfl hl
  | cons a l => exact batches_cons n hn a l

theorem batches_join_aux (n : Nat) (hn : n ≠ 0) :
    ∀ (k : Nat) (l : List α), l.length ≤ k → (batches n l).flatten = l := by
  intro k
  induction k with
  | zero =>
      intro l hl
      have : l = [] := List.eq_nil_of_length_eq_zero (Nat.le_zero.mp hl)
      subst this
      simp [batches_nil]
  | succ k ih =>
      intro l hl
      cases l with
      | nil => simp [batches_nil]
      | cons a l =>
          rw [batches_cons n hn a l]
          have hd : ((a :: l).drop n).length ≤ k := by
            simp only [List.length_drop, List.length_cons]
            have h1 : 1 ≤ n := Nat.one_le_iff_ne_zero.mpr hn
            have h2 : l.length + 1 ≤ k + 1 := by simpa using hl
            omega
          simp [List.flatten, ih _ hd, List.take_append_drop]

/-- The batch loop covers the whole input, in order. -/
theorem batches_join (n : Nat) (hn : n ≠ 0) (l : List α) :
    (batches n l).flatten = l :=
  batches_join_aux n hn l.length l le_rfl

theorem batches_mem_aux (n : Nat) (hn : n ≠ 0) :
    ∀ (k : Nat) (l : List α), l.length ≤ k →
      ∀ b ∈ batches n l, b.length ≤ n ∧ b ≠ [] := by
  intro k
  induction k with
  | zero =>
      intro l hl
      have : l = [] := List.eq_nil_of_length_eq_zero (Nat.le_zero.mp hl)
      subst this
      simp [batches_nil]
  | succ k ih =>
      intro l hl b hb
      cases l with
      | nil => simp [batches_nil] at hb
      | cons a l =>
          rw [batches_cons n hn a l] at hb
          rcases List.mem_cons.mp hb with h | h
          · subst h
            constructor
            · simp only [List.length_take, List.length_cons]
              exact Nat.min_le_left n (l.length + 1)
            · obtain ⟨m, rfl⟩ := Nat.exists_eq_succ_of_ne_zero hn
              simp [List.take_cons]
          · have hd : ((a :: l).drop n).length ≤ k := by
              simp only [List.length_drop, List.length_cons]
              have h1 : 1 ≤ n := Nat.one_le_iff_ne_zero.mpr hn
              have h2 : l.length + 1 ≤ k + 1 := by simpa using hl
              omega
            exact ih _ hd b h

/-- Every batch has at most `n` members and none is empty. -/
theorem batches_mem (n : Nat) (hn : n ≠ 0) (l : List α) :
    ∀ b ∈ batches n l, b.length ≤ n ∧ b ≠ [] :=
  batches_mem_aux n hn l.length l le_rfl

theorem batches_dropLast_aux (n : Nat) (hn : n ≠ 0) :
    ∀ (k : Nat) (l : List α), l.length ≤ k →
      ∀ b ∈ (batches n l).dropLast, b.length = n := by
  intro k
  induction k with
  | zero =>
      intro l hl
      have : l = [] := List.eq_nil_of_length_eq_zero (Nat.le_zero.mp hl)
      subst this
      simp [batches_nil]
  | succ k ih =>
      intro l hl b hb
      cases l with
      | nil => simp [batches_nil] at hb
      | cons a l =>
          rw [batches_cons n hn a l] at hb
          by_cases hrest : (a :: l).drop n = []
          · rw [hrest, batches_nil] at hb
            simp at hb
          · have hrest2 : batches n ((a :: l).drop n) ≠ [] := by
              cases hdrop : (a :: l).drop n with
              | nil => exact absurd hdrop hrest
              | cons c cl => rw [batches_cons n hn c cl]; simp
            rw [List.dropLast_cons_of_ne_nil hrest2] at hb
            rcases List.mem_cons.mp hb with h | h
            · subst h
              have hlen : n ≤ (a :: l).length := by
                by_contra hcon
                have : (a :: l).drop n = [] :=
                  List.drop_eq_nil_of_le (Nat.le_of_not_le hcon)
                exact hrest this
              simp only [List.length_take, List.length_cons]
              simp only [List.length_cons] at hlen
              omega
            · have hd : ((a :: l).drop n).length ≤ k := by
                simp only [List.length_drop, List.length_cons]
                have h1 : 1 ≤ n := Nat.one_le_iff_ne_zero.mpr hn
                have h2 : l.length + 1 ≤ k + 1 := by simpa using hl
                omega
              exact ih _ hd b h

/-- Every batch except possibly the last has exactly `n` members. -/
theorem batches_dropLast (n : Nat) (hn : n ≠ 0) (l : List α) :
    ∀ b ∈ (batches n l).dropLast, b.length = n :=
  batches_dropLast_aux n hn l.length l le_rfl

/-! ### Lemmas about the counter fold -/

theorem update_job_progress_processed (job : BillingJob) (r : TaskResult) :
    (update_job_progress job r).processed_count = job.processed_count + 1 := by
  cases r <;> rfl

theorem update_job_progress_sum (job : BillingJob) (r : TaskResult) :
    (update_job_progress job r).success_count + (update_job_progress job r).failure_count
      = job.success_count + job.failure_count + 1 := by
  cases r <;> simp [update_job_progress] <;> omega

theorem update_job_progress_total (job : BillingJob) (r : TaskResult) :
    (update_job_progress job r).total_subscriptions = job.total_subscriptions := by
  cases r <;> rfl

theorem update_job_progress_inr (job : BillingJob) (b : Bool) :
    (update_job_progress job (Sum.inr b)).failure_count = job.failure_count ∧
    (update_job_progress job (Sum.inr b)).success_count = job.success_count + 1 := by
  exact ⟨rfl, rfl⟩

theorem foldl_update_processed (rs : List TaskResult) (job : BillingJob) :
    (rs.foldl update_job_progress job).processed_count
      = job.processed_count + rs.length := by
  induction rs generalizing job with
  | nil => simp
  | cons r rs ih =>
      simp only [List.foldl_cons, ih, update_job_progress_processed,
        List.length_cons]
      omega

theorem foldl_update_sum (rs : List TaskResult) (job : BillingJob) :
    (rs.foldl update_job_progress job).success_count
        + (rs.foldl update_job_progress job).failure_count
      = job.success_count + job.failure_count + rs.length := by
  induction rs generalizing job with
  | nil => simp
  | cons r rs ih =>
      simp only [List.foldl_cons, ih, update_job_progress_sum, List.length_cons]
      omega

theorem foldl_update_total (rs : List TaskResult) (job : BillingJob) :
    (rs.foldl update_job_progress job).total_subscriptions
      = job.total_subscriptions := by
  induction rs generalizing job with
  | nil => rfl
  | cons r rs ih =>
      simp only [List.foldl_cons, ih, update_job_progress_total]

theorem foldl_update_all_inr (rs : List TaskResult) (job : BillingJob)
    (h : ∀ r ∈ rs, ∃ b, r = Sum.inr b) :
    (rs.foldl update_job_progress job).failure_count = job.failure_count ∧
    (rs.foldl update_job_progress job).success_count
      = job.success_count + rs.length := by
  induction rs generalizing job with
  | nil => simp
  | cons r rs ih =>
      obtain ⟨b, rfl⟩ := h r (List.mem_cons_self r rs)
      have hrest : ∀ r ∈ rs, ∃ b, r = Sum.inr b :=
        fun r hr => h r (List.mem_cons_of_mem _ hr)
      obtain ⟨ihf, ihs⟩ := ih { job with
        processed_count := job.processed_count + 1,
        success_count := job.success_count + 1 } hrest
      constructor
      · simpa [update_job_progress] using ihf
      · simp only [List.foldl_cons, List.length_cons]
        have h2 : (List.foldl update_job_progress (update_job_progress job (Sum.inr b))
            rs).success_count = job.success_count + 1 + rs.length := by
          simpa [update_job_progress] using ihs
        omega

/-- All task results of one run, batch by batch in order. -/
def job_task_results (now : Int) (gw : Subscription → GatewayBehavior)
    (subs : List Subscription) : List TaskResult :=
  ((batches 10 subs).map
    (fun b => b.map (fun s => billing_task_result now (gw s) s))).flatten

theorem foldl_process_batch_eq (now : Int) (gw : Subscription → GatewayBehavior) :
    ∀ (bs : List (List Subscription)) (job : BillingJob),
      bs.foldl (process_batch now gw) job
        = ((bs.map (fun b => b.map (fun s => billing_task_result now (gw s) s))).flatten).foldl
            update_job_progress job := by
  intro bs
  induction bs with
  | nil => intro job; rfl
  | cons b bs ih =>
      intro job
      simp [process_batch, List.foldl_append, ih]

/-- The batch loop's net effect on the job row is the counter fold over
the flat result sequence, then the terminal transition. -/
theorem process_billing_cycle_async_eq (job_id : String) (now : Int)
    (subs : List Subscription) (gw : Subscription → GatewayBehavior) :
    process_billing_cycle_async job_id now subs gw
      = { (job_task_results now gw subs).foldl update_job_progress
            (initial_job job_id now subs.length) with
          status := "completed", completed_at := some now } := by
  simp [process_billing_cycle_async, job_task_results, foldl_process_batch_eq]

theorem job_task_results_length (now : Int) (gw : Subscription → GatewayBehavior)
    (subs : List Subscription) :
    (job_task_results now gw subs).length = subs.length := by
  unfold job_task_results
  rw [← List.map_flatten, batches_join 10 (by decide) subs, List.length_map]

theorem job_task_results_all_inr (now : Int) (gw : Subscription → GatewayBehavior)
    (subs : List Subscription) :
    ∀ r ∈ job_task_results now gw subs, ∃ b, r = Sum.inr b := by
  intro r hr
  unfold job_task_results at hr
  rw [← List.map_flatten] at hr
  obtain ⟨s, _, rfl⟩ := List.mem_map.mp hr
  exact ⟨_, rfl⟩

/-! ### Concrete fixtures used by witnesses and counterexamples -/

/-- A concrete monthly plan. -/
def demoPlan : SubscriptionPlan :=
  { id := 1, name := "basic", price := 10, billing_cycle := "monthly",
    trial_days := 0 }

/-- A concrete active subscription due at time 0. -/
def demoSub : Subscription :=
  { id := 1, user_id := 1, plan := demoPlan, status := .active,
    started_at := 0, next_billing_date := 0, trial_ends_at := none,
    cancelled_at := none }

/-- Index of the first decline reason, "Insufficient funds". -/
def reason0 : Fin failure_reasons.length := ⟨0, by decide⟩

/-! ### Claims -/

/-- C5: `_calculate_next_billing_date` is a pure deterministic function of
the current date and the cycle string: it adds 7 days for "weekly", 30 for
"monthly", 365 for "yearly", and 30 (the monthly default) for any other
cycle string. -/
theorem claim_C5 (t : Int) :
    calculate_next_billing_date t "weekly" = t + 7 ∧
    calculate_next_billing_date t "monthly" = t + 30 ∧
    calculate_next_billing_date t "yearly" = t + 365 ∧
    ∀ c : String, c ≠ "monthly" → c ≠ "yearly" → c ≠ "weekly" →
      calculate_next_billing_date t c = t + 30 := by
  refine ⟨rfl, rfl, rfl, ?_⟩
  intro c h1 h2 h3
  simp [calculate_next_billing_date, h1, h2, h3]

/-- Witness for C5 at concrete inputs, including the unrecognized cycle
string "daily". -/
theorem claim_C5_witness :
    calculate_next_billing_date 100 "weekly" = 107 ∧
    calculate_next_billing_date 100 "monthly" = 130 ∧
    calculate_next_billing_date 100 "yearly" = 465 ∧
    calculate_next_billing_date 100 "daily" = 130 := by
  obtain ⟨h1, h2, h3, h4⟩ := claim_C5 100
  exact ⟨h1, h2, h3, h4 "daily" (by decide) (by decide) (by decide)⟩

/-- C4: a successful payment sets the subscription Active and advances
`next_billing_date` from its previous scheduled value (not from now) by
exactly the plan's cycle offset of 7, 30 or 365 days, so the date
strictly increases on every successful attempt. -/
theorem claim_C4 (now : Int) (s : Subscription) (tx : String) :
    (process_subscription_billing now (.ok tx) s).updatedSub.status
      = SubscriptionStatus.active ∧
    (process_subscription_billing now (.ok tx) s).updatedSub.next_billing_date
      = calculate_next_billing_date s.next_billing_date s.plan.billing_cycle ∧
    (∃ d : Int, (d = 7 ∨ d = 30 ∨ d = 365) ∧
      (process_subscription_billing now (.ok tx) s).updatedSub.next_billing_date
        = s.next_billing_date + d) ∧
    s.next_billing_date
      < (process_subscription_billing now (.ok tx) s).updatedSub.next_billing_date := by
  refine ⟨rfl, rfl, ?_, ?_⟩
  · show ∃ d : Int, (d = 7 ∨ d = 30 ∨ d = 365) ∧
      calculate_next_billing_date s.next_billing_date s.plan.billing_cycle
        = s.next_billing_date + d
    unfold calculate_next_billing_date
    split_ifs
    · exact ⟨30, Or.inr (Or.inl rfl), rfl⟩
    · exact ⟨365, Or.inr (Or.inr rfl), rfl⟩
    · exact ⟨7, Or.inl rfl, rfl⟩
    · exact ⟨30, Or.inr (Or.inl rfl), rfl⟩
  · show s.next_billing_date
      < calculate_next_billing_date s.next_billing_date s.plan.billing_cycle
    unfold calculate_next_billing_date
    split_ifs <;> omega

/-- C3 (amended): a failed payment sets the subscription PastDue and
leaves `next_billing_date` exactly as it was — the attempt changes no
scheduling field — but the subscription then no longer satisfies the
source's `dueForBilling` query, which requires status Active. -/
theorem claim_C3 (now : Int) (g : GatewayBehavior) (s : Subscription)
    (hfail : (process_payment g).success = false) :
    (process_subscription_billing now g s).updatedSub.status
      = SubscriptionStatus.past_due ∧
    (process_subscription_billing now g s).updatedSub.next_billing_date
      = s.next_billing_date ∧
    ∀ today : Int,
      dueForBilling today ((process_subscription_billing now g s).updatedSub)
        = false := by
  have heq : (process_subscription_billing now g s).updatedSub
      = { s with status := SubscriptionStatus.past_due } := by
    simp [process_subscription_billing, hfail]
  refine ⟨by rw [heq], by rw [heq], ?_⟩
  intro today
  rw [heq]
  simp [dueForBilling]

/-- Witness for C3 (amended) at a concrete declined attempt on `demoSub`. -/
theorem claim_C3_witness :
    (process_payment (.declined "tx" reason0)).success = false ∧
    (process_subscription_billing 3 (.declined "tx" reason0) demoSub).updatedSub.status
      = SubscriptionStatus.past_due ∧
    (process_subscription_billing 3 (.declined "tx" reason0) demoSub).updatedSub.next_billing_date
      = demoSub.next_billing_date := by
  have h := claim_C3 3 (.declined "tx" reason0) demoSub (by decide)
  exact ⟨by decide, h.1, h.2.1⟩

/-- C3 counterexample: the concrete subscription `demoSub` is due at time
0, a declined payment leaves its `next_billing_date` unchanged (still ≤
today), yet the updated subscription does not satisfy the `dueForBilling`
query — its status is PastDue while the query requires Active — refuting
the claim's "still satisfies the dueForBilling predicate" part. -/
theorem claim_C3_counterexample :
    dueForBilling 0 demoSub = true ∧
    (process_payment (.declined "tx" reason0)).success = false ∧
    (process_subscription_billing 0 (.declined "tx" reason0) demoSub).updatedSub.next_billing_date
      = demoSub.next_billing_date ∧
    (process_subscription_billing 0 (.declined "tx" reason0) demoSub).updatedSub.next_billing_date
      ≤ 0 ∧
    dueForBilling 0
      ((process_subscription_billing 0 (.declined "tx" reason0) demoSub).updatedSub)
      = false := by
  decide

/-- C2: every billing attempt creates exactly one billing-history record;
on a gateway error the record's outcome is Failed with the distinguished
failure reason "System error: Gateway timeout", which is none of the
declined-payment reasons; on a declined payment the record is Failed with
one of those reasons. -/
theorem claim_C2 (now : Int) (s : Subscription) :
    (∀ g : GatewayBehavior,
      (process_subscription_billing now g s).records.length = 1) ∧
    (∀ tx : String, ∃ r : BillingHistory,
      (process_subscription_billing now (.gatewayTimeout tx) s).records = [r] ∧
      r.status = PaymentStatus.failed ∧
      r.failure_reason = some "System error: Gateway timeout" ∧
      "System error: Gateway timeout" ∉ failure_reasons) ∧
    (∀ (tx : String) (i : Fin failure_reasons.length), ∃ r : BillingHistory,
      (process_subscription_billing now (.declined tx i) s).records = [r] ∧
      r.status = PaymentStatus.failed ∧
      r.failure_reason = some (failure_reasons.get i) ∧
      failure_reasons.get i ∈ failure_reasons) := by
  refine ⟨?_, ?_, ?_⟩
  · intro g
    cases g <;> rfl
  · intro tx
    exact ⟨_, rfl, rfl, rfl, by decide⟩
  · intro tx i
    exact ⟨_, rfl, rfl, rfl, List.get_mem failure_reasons i.1 i.2⟩

/-- C1: code evaluation at the failing input — one due subscription, a
gateway that always declines. The attempt returns `False` (no exception)
and marks the subscription PastDue, yet the job's counter loop, which
tests `isinstance(result, Exception)`, counts the member as a success:
the run ends with successCount = 1 and failureCount = 0, not
failureCount = 1 / successCount = 0 as the claim states. -/
theorem claim_C1_code_eval :
    (process_subscription_billing 0 (.declined "tx" reason0) demoSub).returned
      = false ∧
    (process_subscription_billing 0 (.declined "tx" reason0) demoSub).updatedSub.status
      = SubscriptionStatus.past_due ∧
    (process_billing_cycle_async "job-1" 0 [demoSub]
      (fun _ => .declined "tx" reason0)).success_count = 1 ∧
    (process_billing_cycle_async "job-1" 0 [demoSub]
      (fun _ => .declined "tx" reason0)).failure_count = 0 := by
  have hall := job_task_results_all_inr 0 (fun _ => .declined "tx" reason0) [demoSub]
  have hlen := job_task_results_length 0 (fun _ => .declined "tx" reason0) [demoSub]
  obtain ⟨hf, hs⟩ := foldl_update_all_inr _
    (initial_job "job-1" 0 [demoSub].length) hall
  refine ⟨by decide, by decide, ?_, ?_⟩
  · rw [process_billing_cycle_async_eq]
    show (List.foldl update_job_progress (initial_job "job-1" 0 [demoSub].length)
        (job_task_results 0 (fun _ => .declined "tx" reason0) [demoSub])).success_count
      = 1
    rw [hs, hlen]
    rfl
  · rw [process_billing_cycle_async_eq]
    show (List.foldl update_job_progress (initial_job "job-1" 0 [demoSub].length)
        (job_task_results 0 (fun _ => .declined "tx" reason0) [demoSub])).failure_count
      = 0
    rw [hf]
    rfl

/-- The job row after the first `k` counter updates of a run (the loop
commits per batch; this exposes every intermediate counter state). -/
def job_after (job_id : String) (now : Int) (subs : List Subscription)
    (gw : Subscription → GatewayBehavior) (k : Nat) : BillingJob :=
  ((job_task_results now gw subs).take k).foldl update_job_progress
    (initial_job job_id now subs.length)

/-- C6: at every point of a run the job satisfies
processedCount = successCount + failureCount and
processedCount ≤ totalSubscriptions; the completed job additionally has
processedCount = totalSubscriptions = population size, and the terminal
transition mutates no counter (final counters equal the counters after the
last update). -/
theorem claim_C6 (job_id : String) (now : Int) (subs : List Subscription)
    (gw : Subscription → GatewayBehavior) :
    (∀ k : Nat,
      (job_after job_id now subs gw k).processed_count
        = (job_after job_id now subs gw k).success_count
          + (job_after job_id now subs gw k).failure_count ∧
      (job_after job_id now subs gw k).processed_count
        ≤ (job_after job_id now subs gw k).total_subscriptions) ∧
    (process_billing_cycle_async job_id now subs gw).status = "completed" ∧
    (process_billing_cycle_async job_id now subs gw).processed_count
      = (process_billing_cycle_async job_id now subs gw).success_count
        + (process_billing_cycle_async job_id now subs gw).failure_count ∧
    (process_billing_cycle_async job_id now subs gw).processed_count
      = (process_billing_cycle_async job_id now subs gw).total_subscriptions ∧
    (process_billing_cycle_async job_id now subs gw).total_subscriptions
      = subs.length ∧
    (process_billing_cycle_async job_id now subs gw).processed_count
      = (job_after job_id now subs gw
          (job_task_results now gw subs).length).processed_count ∧
    (process_billing_cycle_async job_id now subs gw).success_count
      = (job_after job_id now subs gw
          (job_task_results now gw subs).length).success_count ∧
    (process_billing_cycle_async job_id now subs gw).failure_count
      = (job_after job_id now subs gw
          (job_task_results now gw subs).length).failure_count := by
  have hrs := job_task_results_length now gw subs
  have htake : (job_task_results now gw subs).take
      (job_task_results now gw subs).length = job_task_results now gw subs :=
    List.take_length _
  refine ⟨?_, ?_, ?_, ?_, ?_, ?_, ?_, ?_⟩
  · intro k
    unfold job_after
    constructor
    · rw [foldl_update_processed, foldl_update_sum]
      simp [initial_job]
    · rw [foldl_update_processed, foldl_update_total]
      have h1 : (((job_task_results now gw subs).take k)).length ≤ subs.length := by
        rw [List.length_take]
        exact le_trans (Nat.min_le_right _ _) (le_of_eq hrs)
      simp only [initial_job]
      omega
  · rw [process_billing_cycle_async_eq]
  · rw [process_billing_cycle_async_eq]
    show (List.foldl update_job_progress (initial_job job_id now subs.length)
        (job_task_results now gw subs)).processed_count
      = (List.foldl update_job_progress (initial_job job_id now subs.length)
        (job_task_results now gw subs)).success_count
        + (List.foldl update_job_progress (initial_job job_id now subs.length)
        (job_task_results now gw subs)).failure_count
    rw [foldl_update_processed, foldl_update_sum]
    simp [initial_job]
  · rw [process_billing_cycle_async_eq]
    show (List.foldl update_job_progress (initial_job job_id now subs.length)
        (job_task_results now gw subs)).processed_count
      = (List.foldl update_job_progress (initial_job job_id now subs.length)
        (job_task_results now gw subs)).total_subscriptions
    rw [foldl_update_processed, foldl_update_total, hrs]
    simp [initial_job]
  · rw [process_billing_cycle_async_eq]
    show (List.foldl update_job_progress (initial_job job_id now subs.length)
        (job_task_results now gw subs)).total_subscriptions = subs.length
    rw [foldl_update_total]
    rfl
  · rw [process_billing_cycle_async_eq]
    unfold job_after
    rw [htake]
  · rw [process_billing_cycle_async_eq]
    unfold job_after
    rw [htake]
  · rw [process_billing_cycle_async_eq]
    unfold job_after
    rw [htake]

/-- C9: the batch loop partitions the due sequence into contiguous batches
of batchSize = 10 in input order, only the last batch possibly smaller;
for 25 due subscriptions it makes exactly 3 batches of sizes 10, 10, 5,
and the job ends completed with counters summing to 25. -/
theorem claim_C9 (job_id : String) (now : Int)
    (gw : Subscription → GatewayBehavior) (subs : List Subscription)
    (h25 : subs.length = 25) :
    (∀ l : List Subscription, (batches 10 l).flatten = l) ∧
    (∀ l : List Subscription, ∀ b ∈ (batches 10 l).dropLast, b.length = 10) ∧
    (∀ l : List Subscription, ∀ b ∈ batches 10 l, b.length ≤ 10 ∧ b ≠ []) ∧
    (batches 10 subs).map List.length = [10, 10, 5] ∧
    (process_billing_cycle_async job_id now subs gw).status = "completed" ∧
    (process_billing_cycle_async job_id now subs gw).processed_count = 25 ∧
    (process_billing_cycle_async job_id now subs gw).success_count
      + (process_billing_cycle_async job_id now subs gw).failure_count = 25 := by
  have hrs := job_task_results_length now gw subs
  refine ⟨fun l => batches_join 10 (by decide) l,
    fun l => batches_dropLast 10 (by decide) l,
    fun l => batches_mem 10 (by decide) l, ?_, ?_, ?_, ?_⟩
  · have hne : subs ≠ [] := by
      intro h
      rw [h] at h25
      simp at h25
    have h1 : batches 10 subs = subs.take 10 :: batches 10 (subs.drop 10) :=
      batches_ne_nil_eq 10 (by decide) subs hne
    have hd1 : (subs.drop 10).length = 15 := by
      rw [List.length_drop, h25]
    have hne1 : subs.drop 10 ≠ [] := by
      intro h
      rw [h] at hd1
      simp at hd1
    have h2 : batches 10 (subs.drop 10)
        = (subs.drop 10).take 10 :: batches 10 ((subs.drop 10).drop 10) :=
      batches_ne_nil_eq 10 (by decide) _ hne1
    have hd2 : ((subs.drop 10).drop 10).length = 5 := by
      rw [List.length_drop, hd1]
    have hne2 : (subs.drop 10).drop 10 ≠ [] := by
      intro h
      rw [h] at hd2
      simp at hd2
    have h3 : batches 10 ((subs.drop 10).drop 10)
        = ((subs.drop 10).drop 10).take 10
          :: batches 10 (((subs.drop 10).drop 10).drop 10) :=
      batches_ne_nil_eq 10 (by decide) _ hne2
    have hd3 : ((subs.drop 10).drop 10).drop 10 = [] := by
      apply List.eq_nil_of_length_eq_zero
      rw [List.length_drop, hd2]
    rw [h1, h2, h3, hd3, batches_nil]
    simp only [List.map_cons, List.map_nil, List.length_take, hd1, hd2, h25]
    decide
  · rw [process_billing_cycle_async_eq]
  · rw [process_billing_cycle_async_eq]
    show (List.foldl update_job_progress (initial_job job_id now subs.length)
        (job_task_results now gw subs)).processed_count = 25
    rw [foldl_update_processed, hrs, h25]
    rfl
  · rw [process_billing_cycle_async_eq]
    show (List.foldl update_job_progress (initial_job job_id now subs.length)
          (job_task_results now gw subs)).success_count
        + (List.foldl update_job_progress (initial_job job_id now subs.length)
          (job_task_results now gw subs)).failure_count = 25
    rw [foldl_update_sum, hrs, h25]
    rfl

/-- Witness for C9: 25 concrete subscriptions, always-succeeding gateway. -/
theorem claim_C9_witness :
    (List.replicate 25 demoSub).length = 25 ∧
    (batches 10 (List.replicate 25 demoSub)).map List.length = [10, 10, 5] ∧
    (process_billing_cycle_async "job-2" 0 (List.replicate 25 demoSub)
      (fun _ => .ok "tx")).status = "completed" ∧
    (process_billing_cycle_async "job-2" 0 (List.replicate 25 demoSub)
      (fun _ => .ok "tx")).processed_count = 25 ∧
    (process_billing_cycle_async "job-2" 0 (List.replicate 25 demoSub)
      (fun _ => .ok "tx")).success_count
      + (process_billing_cycle_async "job-2" 0 (List.replicate 25 demoSub)
      (fun _ => .ok "tx")).failure_count = 25 := by
  have h := claim_C9 "job-2" 0 (fun _ => .ok "tx")
    (List.replicate 25 demoSub) (by simp)
  exact ⟨by simp, h.2.2.2.1, h.2.2.2.2.1, h.2.2.2.2.2.1, h.2.2.2.2.2.2⟩

/-- Looking a row up by id after mapping an id-preserving function over the
store finds the image of the row that was found before. -/
theorem find_subscription_map (store : List Subscription) (sid : Nat)
    (f : Subscription → Subscription) (hf : ∀ s, (f s).id = s.id) :
    find_subscription (store.map f) sid
      = (find_subscription store sid).map f := by
  induction store with
  | nil => rfl
  | cons a l ih =>
      unfold find_subscription at ih ⊢
      by_cases h : (a.id == sid) = true
      · rw [List.map_cons, List.find?_cons_of_pos, List.find?_cons_of_pos]
        · rfl
        · exact h
        · rw [hf a]; exact h
      · rw [List.map_cons, List.find?_cons_of_neg, List.find?_cons_of_neg]
        · exact ih
        · exact h
        · rw [hf a]; exact h

/-- Unfolding `cancel_subscription` when no row matches. -/
theorem cancel_subscription_none_eq (now : Int) (store : List Subscription)
    (sid : Nat) (hfind : find_subscription store sid = none) :
    cancel_subscription now store sid = (false, store) := by
  unfold cancel_subscription
  rw [hfind]

/-- Unfolding `cancel_subscription` when a row matches. -/
theorem cancel_subscription_some_eq (now : Int) (store : List Subscription)
    (sid : Nat) (s0 : Subscription)
    (hfind : find_subscription store sid = some s0) :
    cancel_subscription now store sid
      = (true, store.map (fun s => if s.id == sid then
          { s with
            status := SubscriptionStatus.cancelled
            cancelled_at := some now } else s)) := by
  unfold cancel_subscription
  rw [hfind]

/-- C7: cancelSubscription returns false exactly when no subscription has
the given id; when one exists it marks that row Cancelled with
cancelledAt = now and returns true, and calling it again on the
already-cancelled store still returns true and leaves the row Cancelled
(idempotent). -/
theorem claim_C7 (now now2 : Int) (store : List Subscription) (sid : Nat) :
    ((cancel_subscription now store sid).1 = false ↔
      find_subscription store sid = none) ∧
    (∀ s, find_subscription store sid = some s →
      (cancel_subscription now store sid).1 = true ∧
      find_subscription (cancel_subscription now store sid).2 sid
        = some { s with
                 status := SubscriptionStatus.cancelled
                 cancelled_at := some now } ∧
      (cancel_subscription now2 (cancel_subscription now store sid).2 sid).1
        = true ∧
      ∀ s2, find_subscription
          (cancel_subscription now2 (cancel_subscription now store sid).2 sid).2
          sid = some s2 → s2.status = SubscriptionStatus.cancelled) := by
  have hpres : ∀ t : Int, ∀ s : Subscription,
      ((fun s : Subscription => if s.id == sid then
        { s with
          status := SubscriptionStatus.cancelled
          cancelled_at := some t } else s) s).id = s.id := by
    intro t s
    by_cases h : (s.id == sid) = true
    · simp [h]
    · simp [h]
  cases hfind : find_subscription store sid with
  | none =>
      rw [cancel_subscription_none_eq now store sid hfind]
      constructor
      · simp
      · intro s hs
        exact absurd hs (by simp)
  | some s0 =>
      have hid0 : (s0.id == sid) = true := by
        have h := hfind
        unfold find_subscription at h
        have h2 := List.find?_some h
        exact h2
      have hcs := cancel_subscription_some_eq now store sid s0 hfind
      have hfind1 : find_subscription
          (store.map (fun s : Subscription => if s.id == sid then
            { s with
              status := SubscriptionStatus.cancelled
              cancelled_at := some now } else s)) sid
          = some (if s0.id == sid then
            { s0 with
              status := SubscriptionStatus.cancelled
              cancelled_at := some now } else s0) := by
        rw [find_subscription_map store sid _ (hpres now), hfind]
        rfl
      constructor
      · rw [hcs]
        simp
      · intro s hs
        injection hs with hs
        subst hs
        have hcs2 := cancel_subscription_some_eq now2
          (store.map (fun s : Subscription => if s.id == sid then
            { s with
              status := SubscriptionStatus.cancelled
              cancelled_at := some now } else s)) sid _ hfind1
        refine ⟨by rw [hcs], ?_, ?_, ?_⟩
        · rw [hcs, hfind1]
          simp [hid0]
        · rw [hcs]
          show (cancel_subscription now2 _ sid).1 = true
          rw [hcs2]
        · intro s2 hs2
          rw [hcs] at hs2
          replace hs2 : find_subscription
              ((cancel_subscription now2 (store.map
                (fun s : Subscription => if s.id == sid then
                  { s with
                    status := SubscriptionStatus.cancelled
                    cancelled_at := some now } else s)) sid)).2 sid
              = some s2 := hs2
          rw [hcs2] at hs2
          rw [find_subscription_map _ sid _ (hpres now2), hfind1] at hs2
          simp only [Option.map_some'] at hs2
          injection hs2 with hs2
          rw [← hs2]
          simp [hid0]

/-- Witness for C7 on a one-row store containing `demoSub` (id 1),
cancelled twice. -/
theorem claim_C7_witness :
    find_subscription [demoSub] 1 = some demoSub ∧
    (cancel_subscription 5 [demoSub] 1).1 = true ∧
    (cancel_subscription 6 (cancel_subscription 5 [demoSub] 1).2 1).1 = true ∧
    ∀ s2, find_subscription
        (cancel_subscription 6 (cancel_subscription 5 [demoSub] 1).2 1).2 1
        = some s2 → s2.status = SubscriptionStatus.cancelled := by
  have h := (claim_C7 5 6 [demoSub] 1).2 demoSub (by decide)
  exact ⟨by decide, h.1, h.2.2.1, h.2.2.2⟩

/-- A concrete plan with a 14-day trial. -/
def demoTrialPlan : SubscriptionPlan :=
  { id := 2, name := "trial", price := 5, billing_cycle := "monthly",
    trial_days := 14 }

/-- A creation request carrying `trial_days_override = 0`. -/
def demoCreate : SubscriptionCreate :=
  { user_id := 1, plan_id := 2, status := .active,
    trial_days_override := some 0 }

/-- C10: a trial_days_override of 0 (a value the request schema accepts)
does not disable the trial: `0` is falsy in
`trial_days_override or plan.trial_days`, so the plan's own trial_days is
used, and when that is positive the subscription still gets
trialEndsAt = now + plan.trial_days with nextBillingDate equal to it. -/
theorem claim_C10 (now : Int) (plan : SubscriptionPlan) (d : SubscriptionCreate)
    (hov : d.trial_days_override = some 0) (hpos : 0 < plan.trial_days) :
    pyOrInt d.trial_days_override plan.trial_days = plan.trial_days ∧
    (create_subscription now plan d).trial_ends_at
      = some (now + plan.trial_days) ∧
    (create_subscription now plan d).next_billing_date
      = now + plan.trial_days := by
  have h1 : pyOrInt d.trial_days_override plan.trial_days = plan.trial_days := by
    rw [hov]
    simp [pyOrInt]
  refine ⟨h1, ?_, ?_⟩
  · simp [create_subscription, h1, hpos]
  · simp [create_subscription, h1, hpos]

/-- Witness for C10: the 14-day-trial plan with an override of 0 still
yields a trial ending (and first billing) 14 days out. -/
theorem claim_C10_witness :
    demoCreate.trial_days_override = some 0 ∧
    (0 : Int) < demoTrialPlan.trial_days ∧
    (create_subscription 0 demoTrialPlan demoCreate).trial_ends_at
      = some 14 ∧
    (create_subscription 0 demoTrialPlan demoCreate).next_billing_date
      = 14 := by
  have h := claim_C10 0 demoTrialPlan demoCreate rfl (by decide)
  refine ⟨rfl, by decide, ?_, ?_⟩
  · have h2 := h.2.1
    simpa [demoTrialPlan] using h2
  · have h2 := h.2.2
    simpa [demoTrialPlan] using h2
